import Mathlib

/-!
Verification development for the Disaster Recon UAV telemetry/control sketch.

Shallow embedding conventions:
* C++ `float` fields are embedded as `Rat` (all comparisons in the source are
  order comparisons against decimal constants, which `Rat` models exactly).
* C++ `int` fields are embedded as `Int`.
* The discrete operating state is the C++ `int` encoding from config.h
  (`STATE_OFF = 0`, ..., `STATE_ERROR = 4`).
* Actuation and serial side effects are reified as an explicit `Effect` trace;
  pure Serial debug prints that carry no data are elided from the traces.
-/

namespace UAV

/-- Constant from config.h: `#define MQ2_THRESHOLD 460`. -/
def MQ2_THRESHOLD : Int := 460

/-- Constant from config.h: `#define STATE_OFF 0`. -/
def STATE_OFF : Int := 0

/-- Constant from config.h: `#define STATE_IDLE 1`. -/
def STATE_IDLE : Int := 1

/-- Constant from config.h: `#define STATE_ACTIVE 2`. -/
def STATE_ACTIVE : Int := 2

/-- Constant from config.h: `#define STATE_ALERT 3`. -/
def STATE_ALERT : Int := 3

/-- Constant from config.h: `#define STATE_ERROR 4`. -/
def STATE_ERROR : Int := 4

/-- Embedding of `struct SensorData` from sensors.h. -/
structure SensorData where
  temperature : Rat
  humidity : Rat
  gasLevel : Int
  distance : Int
  pitch : Rat
  roll : Rat
  yaw : Rat
  valid : Bool
deriving DecidableEq

/-- Embedding of `bool isHazardousGas(int gasLevel)` from sensors.h line 103:
`return gasLevel >= MQ2_THRESHOLD;`. -/
def isHazardousGas (gasLevel : Int) : Bool :=
  decide (gasLevel ≥ MQ2_THRESHOLD)

/-- Reified actuator and serial side effects.  Each constructor stands for one
call of the corresponding helper in actuators.h / motor_control.h, or a
`delay`. -/
inductive Effect where
  | beepStateChange
  | serialStateChange (old new : Int)
  | motorOn
  | motorOff
  | rgbOff
  | rgbPurple
  | rgbGreen
  | rgbRed
  | rgbYellow
  | rgbOrange
  | rgbCyan
  | rgbDeepBlue
  | rgbBlue
  | displayOff
  | displayAlert
  | displayError
  | beepHazard
  | beepEnvironmental
  | beepObstacle
  | beepIR
  | lcdBacklight
  | lcdClear
  | lcdSetCursor (c r : Nat)
  | lcdPrint (s : String)
  | delayMs (ms : Nat)
deriving DecidableEq

/-- State-change notifications carried by an effect trace (the
`Serial.print("State changed: ...")` lines emitted by `setState`). -/
def stateChanges (es : List Effect) : List (Int × Int) :=
  es.filterMap fun e =>
    match e with
    | Effect.serialStateChange a b => some (a, b)
    | _ => none

/-- The two mutable state-machine globals of motor_control.h:
`int currentState` and `int previousState`. -/
structure StateMachine where
  currentState : Int
  previousState : Int
deriving DecidableEq

/-- The per-state actuation arms of the `switch (currentState)` inside
`setState` (motor_control.h lines 76-111).  An `int` outside 0..4 falls
through every case and actuates nothing. -/
def stateEffects (s : Int) : List Effect :=
  if s = STATE_OFF then
    [Effect.motorOff, Effect.rgbOff, Effect.displayOff]
  else if s = STATE_IDLE then
    [Effect.motorOn, Effect.rgbPurple, Effect.lcdBacklight, Effect.lcdClear,
     Effect.lcdPrint "UAV ACTIVE", Effect.lcdSetCursor 0 1,
     Effect.lcdPrint "Warming up..."]
  else if s = STATE_ACTIVE then
    [Effect.motorOn, Effect.rgbGreen, Effect.lcdBacklight]
  else if s = STATE_ALERT then
    [Effect.motorOn, Effect.rgbRed, Effect.displayAlert, Effect.beepHazard]
  else if s = STATE_ERROR then
    [Effect.motorOff, Effect.rgbYellow, Effect.displayError]
  else []

/-- Embedding of `void setState(int newState)` (motor_control.h lines 61-113).
When `newState` differs from `currentState` it shifts `previousState`, writes
`currentState`, beeps, prints the state-change notification and runs the
new state's actuation arm; otherwise the whole body is skipped. -/
def setState (m : StateMachine) (newState : Int) : StateMachine × List Effect :=
  if newState ≠ m.currentState then
    (⟨newState, m.currentState⟩,
      Effect.beepStateChange ::
        Effect.serialStateChange m.currentState newState ::
          stateEffects newState)
  else (m, [])

/-- Embedding of `void updateState(SensorData data)` (motor_control.h lines
116-142).  The commented-out `!data.valid → STATE_ERROR` branch is absent,
exactly as in the source. -/
def updateState (m : StateMachine) (data : SensorData) :
    StateMachine × List Effect :=
  if m.currentState = STATE_OFF then (m, [])
  else if isHazardousGas data.gasLevel then setState m STATE_ALERT
  else if m.currentState = STATE_IDLE ∨ m.currentState = STATE_ACTIVE ∨
      m.currentState = STATE_ALERT then
    if m.currentState ≠ STATE_ACTIVE then setState m STATE_ACTIVE else (m, [])
  else (m, [])

/-- The seven hazard classifications of the environmental-threshold chain
(spec section 4.2 names them; the chain itself is loop lines 132-204). -/
inductive Hazard where
  | fire
  | blizzard
  | hurricane
  | gas
  | obstacle
  | tilt
  | none
deriving DecidableEq

/-- Embedding of Arduino `Print::printFloat(number, 1)` for a nonnegative
argument: add the rounding term 0.05, print the integer part, a dot, then one
fractional digit obtained by multiplying the remainder by 10 and truncating. -/
def printFloatNonneg1 (x : Rat) : String :=
  let y := x + 1 / 20
  let ip : Nat := y.floor.toNat
  let d : Nat := ((y - (ip : Rat)) * 10).floor.toNat
  toString ip ++ "." ++ toString d

/-- Embedding of Arduino `Print::print(double, 1)` (one decimal place):
a leading minus sign for negative numbers, then the nonnegative rendering. -/
def printFloat1 (x : Rat) : String :=
  if x < 0 then "-" ++ printFloatNonneg1 (-x) else printFloatNonneg1 x

/-- Embedding of Arduino `Print::printFloat(number, 0)` for a nonnegative
argument: add the rounding term 0.5 and print the integer part only. -/
def printFloatNonneg0 (x : Rat) : String :=
  toString (x + 1 / 2).floor.toNat

/-- Embedding of Arduino `Print::print(double, 0)` (zero decimal places). -/
def printFloat0 (x : Rat) : String :=
  if x < 0 then "-" ++ printFloatNonneg0 (-x) else printFloatNonneg0 x

/-- Embedding of the environmental-threshold detection chain of `loop`
(part_001 lines 132-204): the six prioritized `if`/`else if` hazard checks,
returning the matched classification together with its advisory actuation
trace (LCD text, beep pattern, RGB flash). -/
def hazardTick (d : SensorData) : Hazard × List Effect :=
  if d.temperature ≥ 30 then
    (Hazard.fire,
      [Effect.lcdClear, Effect.lcdPrint "FIRE DETECTED!", Effect.lcdSetCursor 0 1,
       Effect.lcdPrint "Temp: ", Effect.lcdPrint (printFloat1 d.temperature),
       Effect.lcdPrint "C", Effect.beepEnvironmental, Effect.rgbOrange,
       Effect.delayMs 100, Effect.rgbOff])
  else if d.temperature ≤ 20 then
    (Hazard.blizzard,
      [Effect.lcdClear, Effect.lcdPrint "BLIZZARD!", Effect.lcdSetCursor 0 1,
       Effect.lcdPrint "Temp: ", Effect.lcdPrint (printFloat1 d.temperature),
       Effect.lcdPrint "C", Effect.beepEnvironmental, Effect.rgbCyan,
       Effect.delayMs 100, Effect.rgbOff])
  else if d.humidity ≥ 99 ∧ d.humidity ≤ 120 then
    (Hazard.hurricane,
      [Effect.lcdClear, Effect.lcdPrint "HURRICANE!", Effect.lcdSetCursor 0 1,
       Effect.lcdPrint "Humid: ", Effect.lcdPrint (printFloat0 d.humidity),
       Effect.lcdPrint "%", Effect.beepEnvironmental, Effect.rgbDeepBlue,
       Effect.delayMs 100, Effect.rgbOff])
  else if isHazardousGas d.gasLevel then
    (Hazard.gas,
      [Effect.lcdClear, Effect.lcdPrint "GAS DETECTED!", Effect.lcdSetCursor 0 1,
       Effect.lcdPrint "Level: ", Effect.lcdPrint (toString d.gasLevel),
       Effect.beepEnvironmental, Effect.rgbYellow, Effect.delayMs 100,
       Effect.rgbOff])
  else if d.distance > 0 ∧ d.distance < 5 then
    (Hazard.obstacle,
      [Effect.lcdClear, Effect.lcdPrint "OBSTACLE!", Effect.lcdSetCursor 0 1,
       Effect.lcdPrint "Pulling up...", Effect.beepObstacle, Effect.rgbRed,
       Effect.delayMs 50, Effect.rgbOff])
  else if |d.pitch| > 45 ∨ |d.roll| > 45 then
    (Hazard.tilt,
      [Effect.lcdClear, Effect.lcdPrint "TILT ALERT!", Effect.lcdSetCursor 0 1,
       Effect.lcdPrint "Leveling...", Effect.beepObstacle, Effect.rgbRed,
       Effect.delayMs 50, Effect.rgbOff])
  else (Hazard.none, [])

/-- The dominant hazard classification of a sample: the first matching branch
of the environmental-threshold chain (spec section 4.2 `classify`). -/
def classify (d : SensorData) : Hazard :=
  (hazardTick d).1

/-- Embedding of `void sendDataToSerial(SensorData data)` (part_001 lines
297-316): the CSV line `temp,humid,gas,dist,state,pitch,roll,yaw`, floats at
one decimal place, terminated by `Serial.println`'s CRLF.  The `state` field
is the global `currentState`, passed explicitly here. -/
def sendDataToSerial (data : SensorData) (currentState : Int) : String :=
  printFloat1 data.temperature ++ "," ++ printFloat1 data.humidity ++ "," ++
    toString data.gasLevel ++ "," ++ toString data.distance ++ "," ++
    toString currentState ++ "," ++ printFloat1 data.pitch ++ "," ++
    printFloat1 data.roll ++ "," ++ printFloat1 data.yaw ++ "\r\n"

/-- Embedding of `struct ThingSpeakData` (part_001 lines 31-34), the
display-only cache populated by `readThingSpeakData`. -/
structure ThingSpeakData where
  temp : Rat
  humid : Rat
  gas : Int
  dist : Int
  state : Int
  pitch : Rat
  roll : Rat
  yaw : Rat
deriving DecidableEq

/-- The character-accumulation filter of `readThingSpeakData` (part_001 lines
361-370): keep characters up to the newline, admitting only digits, `.`, `-`
and `|` into the buffer. -/
def accumulateLine : List Char → List Char
  | [] => []
  | c :: rest =>
    if c = '\n' then []
    else if c.isDigit || c = '.' || c = '-' || c = '|' then
      c :: accumulateLine rest
    else accumulateLine rest

/-- Helper for `tokenizeLine`: `strtok` semantics, accumulating the current
token in reverse and never yielding empty tokens. -/
def strtokAux : List Char → List Char → List (List Char)
  | [], acc => if acc.isEmpty then [] else [acc.reverse]
  | c :: rest, acc =>
    if c = '|' then
      if acc.isEmpty then strtokAux rest []
      else acc.reverse :: strtokAux rest []
    else strtokAux rest (c :: acc)

/-- Embedding of the `strtok(tempStr, "|")` loop of `readThingSpeakData`:
split the buffered line on `|`, skipping empty tokens. -/
def tokenizeLine (cs : List Char) : List (List Char) :=
  strtokAux cs []

/-- Integer-part accumulator of `atof`: consume leading decimal digits. -/
def parseDigits : List Char → Nat → Nat × List Char
  | [], acc => (acc, [])
  | c :: rest, acc =>
    if c.isDigit then parseDigits rest (10 * acc + (c.toNat - 48))
    else (acc, c :: rest)

/-- Fractional-part accumulator of `atof`: consume digits after the decimal
point, each weighted by a successively smaller power of ten. -/
def parseFrac : List Char → Rat → Rat → Rat
  | [], _, acc => acc
  | c :: rest, scale, acc =>
    if c.isDigit then
      parseFrac rest (scale / 10) (acc + (c.toNat - 48 : Nat) * scale)
    else acc

/-- Magnitude part of `atof`: integer digits, then an optional decimal point
followed by fraction digits; parsing stops at the first character that fits
neither. -/
def atofMag (cs : List Char) : Rat :=
  let p := parseDigits cs 0
  let fp : Rat :=
    match p.2 with
    | [] => 0
    | c :: r => if c = '.' then parseFrac r (1 / 10) 0 else 0
  (p.1 : Rat) + fp

/-- Embedding of C `atof` on an already-filtered token: optional leading
minus sign, then the magnitude. -/
def atof (cs : List Char) : Rat :=
  match cs with
  | [] => 0
  | c :: rest => if c = '-' then -(atofMag rest) else atofMag (c :: rest)

/-- C-style cast `(int)value` on the embedded `float`: truncation toward
zero (`Int.div` is T-division). -/
def truncInt (v : Rat) : Int :=
  Int.tdiv v.num (v.den : Int)

/-- The token-assignment loop of `readThingSpeakData` (part_001 lines
378-392): the `fieldIndex`-th token overwrites the `fieldIndex`-th cache
field via `atof` (with an `(int)` cast for gas, dist and state); indices
beyond 7 fall through the `switch` and are ignored. -/
def applyTokens (cache : ThingSpeakData) : List (List Char) → Nat → ThingSpeakData
  | [], _ => cache
  | t :: rest, i =>
    let v := atof t
    let cache1 :=
      match i with
      | 0 => { cache with temp := v }
      | 1 => { cache with humid := v }
      | 2 => { cache with gas := truncInt v }
      | 3 => { cache with dist := truncInt v }
      | 4 => { cache with state := truncInt v }
      | 5 => { cache with pitch := v }
      | 6 => { cache with roll := v }
      | 7 => { cache with yaw := v }
      | _ => cache
    applyTokens cache1 rest (i + 1)

/-- Embedding of `void readThingSpeakData()` (part_001 lines 357-396) for one
inbound chunk: parsing runs only once a newline has arrived (`newData`);
the buffered characters are filtered, tokenized on `|` and assigned
positionally into the display cache. -/
def readThingSpeakData (cache : ThingSpeakData) (raw : String) : ThingSpeakData :=
  if raw.toList.contains '\n' then
    applyTokens cache (tokenizeLine (accumulateLine raw.toList)) 0
  else cache

/-- Embedding of the handshake wait loop of `connectToCloud` (part_001 lines
327-349): `elapsed` models `millis() - startTime`; each iteration optionally
reads one serial line, returns on `CLOUD_OK` / `CLOUD_FAIL`, and otherwise
advances the clock by the `delay(100)` at the bottom of the loop.  The
returned Bool is the value assigned to `cloudConnected`. -/
def connectLoop (elapsed : Nat) (inp : List (Option String)) : Bool :=
  if elapsed < 5000 then
    match inp with
    | some r :: rest =>
      if r = "CLOUD_OK" then true
      else if r = "CLOUD_FAIL" then false
      else connectLoop (elapsed + 100) rest
    | Option.none :: rest => connectLoop (elapsed + 100) rest
    | [] => connectLoop (elapsed + 100) []
  else false
termination_by 5000 - elapsed
decreasing_by all_goals omega

/-- Embedding of `void connectToCloud()` (part_001 lines 320-354), restricted
to the `cloudConnected` outcome: the wait loop started at elapsed time 0,
falling through to `cloudConnected = false` on deadline expiry. -/
def connectToCloud (inp : List (Option String)) : Bool :=
  connectLoop 0 inp

/-- Embedding of `void handleIRRemote()` (part_001 lines 258-291) for the case
that a decoded IR frame is present: repeat codes (`0x0`) are ignored; any
other code toggles — from `STATE_OFF` it steps to `STATE_IDLE`, waits the
1000 ms warm-up, steps to `STATE_ACTIVE` and runs the cloud handshake;
from any other state it clears `cloudConnected` and steps to `STATE_OFF`. -/
def handleIRRemote (m : StateMachine) (cloudConnected : Bool) (irCode : Nat)
    (cloudInput : List (Option String)) : StateMachine × Bool × List Effect :=
  if irCode ≠ 0 then
    if m.currentState = STATE_OFF then
      let p1 := setState m STATE_IDLE
      let p2 := setState p1.1 STATE_ACTIVE
      (p2.1, connectToCloud cloudInput,
        Effect.beepIR :: p1.2 ++ Effect.delayMs 1000 :: p2.2)
    else
      let p := setState m STATE_OFF
      (p.1, false, Effect.beepIR :: p.2)
  else (m, cloudConnected, [])

/-- Machines whose `(currentState, previousState)` pair can be current at some
instant of an execution: the initial globals `(STATE_OFF, STATE_OFF)`, closed
under the IR turn-on sequence (both its intermediate `STATE_IDLE` point and
its end), the IR turn-off, and the sensor-driven `updateState` tick. -/
inductive ReachableM : StateMachine → Prop
  | init : ReachableM ⟨STATE_OFF, STATE_OFF⟩
  | irOnMid (m : StateMachine) : ReachableM m → m.currentState = STATE_OFF →
      ReachableM (setState m STATE_IDLE).1
  | irOnDone (m : StateMachine) : ReachableM m → m.currentState = STATE_OFF →
      ReachableM (setState (setState m STATE_IDLE).1 STATE_ACTIVE).1
  | irOff (m : StateMachine) : ReachableM m → m.currentState ≠ STATE_OFF →
      ReachableM (setState m STATE_OFF).1
  | sensorTick (m : StateMachine) (d : SensorData) : ReachableM m →
      ReachableM (updateState m d).1

/-- Value of positional field `i` after parsing token list `ts`: the `atof`
of the `i`-th token when present, otherwise the previous (stale) value.
Used to state the positional-population property of the inbound parser. -/
def tokenRat (ts : List (List Char)) (i : Nat) (old : Rat) : Rat :=
  match ts.get? i with
  | some t => atof t
  | Option.none => old

/-- Like `tokenRat` for the `(int)`-cast cache fields. -/
def tokenInt (ts : List (List Char)) (i : Nat) (old : Int) : Int :=
  match ts.get? i with
  | some t => truncInt (atof t)
  | Option.none => old

/-! ### Helper lemmas -/

/-- Batteries `Rat.floor` coincides with the Mathlib floor (the `FloorRing`
instance on `ℚ` is built from it). -/
theorem ratFloor_eq_intFloor (q : Rat) : q.floor = ⌊q⌋ :=
  rfl

/-- Evaluation scheme for the one-decimal renderer on a nonnegative value,
given the two floor computations. -/
theorem printFloatNonneg1_eval (x : Rat) (n k : Nat)
    (h1 : (x + 1 / 20).floor = (n : Int))
    (h2 : ((x + 1 / 20 - (n : Rat)) * 10).floor = (k : Int)) :
    printFloatNonneg1 x = toString n ++ "." ++ toString k := by
  simp only [printFloatNonneg1, h1, Int.toNat_natCast, h2]

/-- Rendering of 23.5 at one decimal place. -/
theorem printFloat1_of_235 : printFloat1 (23.5 : Rat) = "23.5" := by
  rw [printFloat1, if_neg (by norm_num),
    printFloatNonneg1_eval (23.5 : Rat) 23 5
      (by rw [ratFloor_eq_intFloor]; norm_num)
      (by rw [ratFloor_eq_intFloor]; norm_num)]
  decide

/-- Rendering of 55.0 at one decimal place. -/
theorem printFloat1_of_55 : printFloat1 (55.0 : Rat) = "55.0" := by
  rw [printFloat1, if_neg (by norm_num),
    printFloatNonneg1_eval (55.0 : Rat) 55 0
      (by rw [ratFloor_eq_intFloor]; norm_num)
      (by rw [ratFloor_eq_intFloor]; norm_num)]
  decide

/-- Rendering of 1.2 at one decimal place. -/
theorem printFloat1_of_12 : printFloat1 (1.2 : Rat) = "1.2" := by
  rw [printFloat1, if_neg (by norm_num),
    printFloatNonneg1_eval (1.2 : Rat) 1 2
      (by rw [ratFloor_eq_intFloor]; norm_num)
      (by rw [ratFloor_eq_intFloor]; norm_num)]
  decide

/-- Rendering of -0.5 at one decimal place. -/
theorem printFloat1_of_neg05 : printFloat1 (-0.5 : Rat) = "-0.5" := by
  rw [printFloat1, if_pos (by norm_num),
    show (-(-0.5 : Rat)) = (0.5 : Rat) by norm_num,
    printFloatNonneg1_eval (0.5 : Rat) 0 5
      (by rw [ratFloor_eq_intFloor]; norm_num)
      (by rw [ratFloor_eq_intFloor]; norm_num)]
  decide

/-- Rendering of 10.0 at one decimal place. -/
theorem printFloat1_of_10 : printFloat1 (10.0 : Rat) = "10.0" := by
  rw [printFloat1, if_neg (by norm_num),
    printFloatNonneg1_eval (10.0 : Rat) 10 0
      (by rw [ratFloor_eq_intFloor]; norm_num)
      (by rw [ratFloor_eq_intFloor]; norm_num)]
  decide

/-- Rendering of the -999 sensor-failure sentinel at one decimal place. -/
theorem printFloat1_of_neg999 : printFloat1 (-999 : Rat) = "-999.0" := by
  rw [printFloat1, if_pos (by norm_num),
    show (-(-999 : Rat)) = (999 : Rat) by norm_num,
    printFloatNonneg1_eval (999 : Rat) 999 0
      (by rw [ratFloor_eq_intFloor]; norm_num)
      (by rw [ratFloor_eq_intFloor]; norm_num)]
  decide

/-! ### Claims -/

/-- C1: for every current operating state in {Idle, Active, Alert} and every
sample, the sensor-driven `updateState` yields Alert when
`isHazardousGas(gasLevel)` is true and Active otherwise (never Idle); the
next state depends only on the current state and the gas-hazard predicate. -/
theorem updateState_gas_only (m : StateMachine) (d : SensorData)
    (h : m.currentState = STATE_IDLE ∨ m.currentState = STATE_ACTIVE ∨
      m.currentState = STATE_ALERT) :
    ((updateState m d).1).currentState =
      if isHazardousGas d.gasLevel then STATE_ALERT else STATE_ACTIVE := by
  rcases h with h | h | h <;>
    cases hg : isHazardousGas d.gasLevel <;>
      simp [updateState, setState, h, hg, STATE_OFF, STATE_IDLE, STATE_ACTIVE,
        STATE_ALERT]

/-- Witness for C1 at a concrete Active machine and a hazardous sample. -/
theorem updateState_gas_only_witness :
    ((⟨STATE_ACTIVE, STATE_OFF⟩ : StateMachine).currentState = STATE_IDLE ∨
      (⟨STATE_ACTIVE, STATE_OFF⟩ : StateMachine).currentState = STATE_ACTIVE ∨
      (⟨STATE_ACTIVE, STATE_OFF⟩ : StateMachine).currentState = STATE_ALERT) ∧
    ((updateState ⟨STATE_ACTIVE, STATE_OFF⟩
        ⟨0, 0, 500, 100, 0, 0, 0, true⟩).1).currentState =
      if isHazardousGas (⟨0, 0, 500, 100, 0, 0, 0, true⟩ : SensorData).gasLevel
        then STATE_ALERT else STATE_ACTIVE :=
  ⟨by decide, updateState_gas_only _ _ (by decide)⟩

/-- C2: every sample with temperature at least 30.0 classifies as Fire,
whatever the other fields hold (priority dominance). -/
theorem classify_fire_dominance (d : SensorData) (h : d.temperature ≥ 30) :
    classify d = Hazard.fire := by
  simp only [classify, hazardTick]
  rw [if_pos h]

/-- Witness for C2 at temperature 35 with other fields extreme. -/
theorem classify_fire_dominance_witness :
    (⟨35, 110, 1000, 3, 90, 90, 0, true⟩ : SensorData).temperature ≥ 30 ∧
      classify ⟨35, 110, 1000, 3, 90, 90, 0, true⟩ = Hazard.fire :=
  ⟨by norm_num, classify_fire_dominance _ (by norm_num)⟩

/-- C5: when no higher-priority hazard (fire, blizzard, hurricane, gas)
matches, the Obstacle classification holds exactly when 0 < distance < 5. -/
theorem classify_obstacle_iff (d : SensorData)
    (h1 : ¬ d.temperature ≥ 30) (h2 : ¬ d.temperature ≤ 20)
    (h3 : ¬ (d.humidity ≥ 99 ∧ d.humidity ≤ 120))
    (h4 : isHazardousGas d.gasLevel = false) :
    (classify d = Hazard.obstacle ↔ 0 < d.distance ∧ d.distance < 5) := by
  simp only [classify, hazardTick]
  rw [if_neg h1, if_neg h2, if_neg h3, h4]
  simp only [Bool.false_eq_true, if_false]
  by_cases h5 : d.distance > 0 ∧ d.distance < 5
  · rw [if_pos h5]
    simpa using h5
  · rw [if_neg h5]
    constructor
    · intro hcontra
      exact absurd hcontra (by split <;> simp)
    · intro hd
      exact absurd hd h5

/-- Witness for C5: distance 4 triggers Obstacle under calm higher-priority
conditions. -/
theorem classify_obstacle_iff_witness :
    (¬ (⟨25, 50, 100, 4, 0, 0, 0, true⟩ : SensorData).temperature ≥ 30) ∧
    (¬ (⟨25, 50, 100, 4, 0, 0, 0, true⟩ : SensorData).temperature ≤ 20) ∧
    (¬ ((⟨25, 50, 100, 4, 0, 0, 0, true⟩ : SensorData).humidity ≥ 99 ∧
        (⟨25, 50, 100, 4, 0, 0, 0, true⟩ : SensorData).humidity ≤ 120)) ∧
    isHazardousGas (⟨25, 50, 100, 4, 0, 0, 0, true⟩ : SensorData).gasLevel = false ∧
    (classify ⟨25, 50, 100, 4, 0, 0, 0, true⟩ = Hazard.obstacle ↔
      0 < (⟨25, 50, 100, 4, 0, 0, 0, true⟩ : SensorData).distance ∧
        (⟨25, 50, 100, 4, 0, 0, 0, true⟩ : SensorData).distance < 5) :=
  ⟨by norm_num, by norm_num, by norm_num, by decide,
    classify_obstacle_iff _ (by norm_num) (by norm_num) (by norm_num) (by decide)⟩

/-- C6: requesting a transition to the current state is a no-op: the state
machine is unchanged and no actuation effect or notification is produced. -/
theorem setState_self_noop (m : StateMachine) :
    setState m m.currentState = (m, []) := by
  simp [setState]

/-- C10: a sample whose temperature holds the -999 error sentinel classifies
as Blizzard and fires the Blizzard advisory actuation (environmental beeps
and the cyan flash), rather than reporting a sensor failure. -/
theorem classify_sentinel_blizzard (d : SensorData)
    (h : d.temperature = -999) :
    classify d = Hazard.blizzard ∧
      (hazardTick d).2 =
        [Effect.lcdClear, Effect.lcdPrint "BLIZZARD!", Effect.lcdSetCursor 0 1,
         Effect.lcdPrint "Temp: ", Effect.lcdPrint "-999.0", Effect.lcdPrint "C",
         Effect.beepEnvironmental, Effect.rgbCyan, Effect.delayMs 100,
         Effect.rgbOff] := by
  have h1 : ¬ d.temperature ≥ 30 := by rw [h]; norm_num
  have h2 : d.temperature ≤ 20 := by rw [h]; norm_num
  have hp : printFloat1 d.temperature = "-999.0" := by
    rw [h]; exact printFloat1_of_neg999
  constructor
  · simp only [classify, hazardTick]
    rw [if_neg h1, if_pos h2]
  · simp only [hazardTick]
    rw [if_neg h1, if_pos h2, hp]

/-- Witness for C10 at the all-sentinel sample. -/
theorem classify_sentinel_blizzard_witness :
    (⟨-999, -999, 0, -1, 0, 0, 0, false⟩ : SensorData).temperature = -999 ∧
    (classify ⟨-999, -999, 0, -1, 0, 0, 0, false⟩ = Hazard.blizzard ∧
      (hazardTick ⟨-999, -999, 0, -1, 0, 0, 0, false⟩).2 =
        [Effect.lcdClear, Effect.lcdPrint "BLIZZARD!", Effect.lcdSetCursor 0 1,
         Effect.lcdPrint "Temp: ", Effect.lcdPrint "-999.0", Effect.lcdPrint "C",
         Effect.beepEnvironmental, Effect.rgbCyan, Effect.delayMs 100,
         Effect.rgbOff]) :=
  ⟨by norm_num, classify_sentinel_blizzard _ (by norm_num)⟩

/-- After `setState m s`, the current state is `s` (also in the no-op case,
where it already was `s`). -/
theorem setState_currentState (m : StateMachine) (s : Int) :
    ((setState m s).1).currentState = s := by
  by_cases hs : s = m.currentState
  · simp [setState, hs]
  · simp [setState, hs]

/-- The sensor-driven update leaves the current state unchanged or moves it to
Alert or Active. -/
theorem updateState_currentState_cases (m : StateMachine) (d : SensorData) :
    ((updateState m d).1).currentState = m.currentState ∨
    ((updateState m d).1).currentState = STATE_ALERT ∨
    ((updateState m d).1).currentState = STATE_ACTIVE := by
  unfold updateState
  split
  · exact Or.inl rfl
  · split
    · exact Or.inr (Or.inl (setState_currentState _ _))
    · split
      · split
        · exact Or.inr (Or.inr (setState_currentState _ _))
        · exact Or.inl rfl
      · exact Or.inl rfl

/-- Every reachable machine has its current state among Off, Idle, Active and
Alert. -/
theorem reachable_disj (m : StateMachine) (h : ReachableM m) :
    m.currentState = STATE_OFF ∨ m.currentState = STATE_IDLE ∨
    m.currentState = STATE_ACTIVE ∨ m.currentState = STATE_ALERT := by
  induction h with
  | init => decide
  | irOnMid m hm hOff ih => rw [setState_currentState]; decide
  | irOnDone m hm hOff ih => rw [setState_currentState]; decide
  | irOff m hm hne ih => rw [setState_currentState]; decide
  | sensorTick m d hm ih =>
      rcases updateState_currentState_cases m d with hc | hc | hc <;> rw [hc]
      · exact ih
      · decide
      · decide

/-- C3: an IR turn-on from Off first moves the machine to Idle, then, after
the fixed 1000 ms warm-up delay and with no further external input, to
Active: the state-change notifications before the delay are exactly
Off-to-Idle and the ones after exactly Idle-to-Active; there is no direct
Off-to-Active step. -/
theorem handleIR_two_step (m : StateMachine) (cc : Bool) (code : Nat)
    (inp : List (Option String)) (hc : code ≠ 0)
    (h : m.currentState = STATE_OFF) :
    ((setState m STATE_IDLE).1).currentState = STATE_IDLE ∧
    (handleIRRemote m cc code inp).1 = ⟨STATE_ACTIVE, STATE_IDLE⟩ ∧
    ∃ es₁ es₂,
      (handleIRRemote m cc code inp).2.2 = es₁ ++ Effect.delayMs 1000 :: es₂ ∧
      stateChanges es₁ = [(STATE_OFF, STATE_IDLE)] ∧
      stateChanges es₂ = [(STATE_IDLE, STATE_ACTIVE)] := by
  refine ⟨setState_currentState m STATE_IDLE, ?_, ?_⟩
  · simp [handleIRRemote, hc, h, setState, STATE_OFF, STATE_IDLE, STATE_ACTIVE]
  · refine ⟨[Effect.beepIR, Effect.beepStateChange,
      Effect.serialStateChange STATE_OFF STATE_IDLE] ++ stateEffects STATE_IDLE,
      Effect.beepStateChange ::
        Effect.serialStateChange STATE_IDLE STATE_ACTIVE ::
          stateEffects STATE_ACTIVE, ?_, by decide, by decide⟩
    simp [handleIRRemote, hc, h, setState, STATE_OFF, STATE_IDLE, STATE_ACTIVE]

/-- Witness for C3 from the initial machine with a concrete button code. -/
theorem handleIR_two_step_witness :
    (1 : Nat) ≠ 0 ∧
    (⟨STATE_OFF, STATE_OFF⟩ : StateMachine).currentState = STATE_OFF ∧
    (((setState ⟨STATE_OFF, STATE_OFF⟩ STATE_IDLE).1).currentState = STATE_IDLE ∧
    (handleIRRemote ⟨STATE_OFF, STATE_OFF⟩ false 1 []).1 =
      ⟨STATE_ACTIVE, STATE_IDLE⟩ ∧
    ∃ es₁ es₂,
      (handleIRRemote ⟨STATE_OFF, STATE_OFF⟩ false 1 []).2.2 =
        es₁ ++ Effect.delayMs 1000 :: es₂ ∧
      stateChanges es₁ = [(STATE_OFF, STATE_IDLE)] ∧
      stateChanges es₂ = [(STATE_IDLE, STATE_ACTIVE)]) :=
  ⟨by decide, by decide, handleIR_two_step _ _ _ _ (by decide) (by decide)⟩

/-- C4: starting from the initial Off machine, no sequence of external IR
commands and sensor samples reaches the Error state (the critical-sensor
validity check that would enter it is disabled): every reachable current
state lies in {Off, Idle, Active, Alert}. -/
theorem reachable_no_error (m : StateMachine) (h : ReachableM m) :
    m.currentState ≠ STATE_ERROR ∧
      (m.currentState = STATE_OFF ∨ m.currentState = STATE_IDLE ∨
       m.currentState = STATE_ACTIVE ∨ m.currentState = STATE_ALERT) := by
  have hd := reachable_disj m h
  refine ⟨?_, hd⟩
  rcases hd with h1 | h1 | h1 | h1 <;> rw [h1] <;> decide

/-- Witness for C4 at the initial machine. -/
theorem reachable_no_error_witness :
    (⟨STATE_OFF, STATE_OFF⟩ : StateMachine).currentState ≠ STATE_ERROR ∧
      ((⟨STATE_OFF, STATE_OFF⟩ : StateMachine).currentState = STATE_OFF ∨
       (⟨STATE_OFF, STATE_OFF⟩ : StateMachine).currentState = STATE_IDLE ∨
       (⟨STATE_OFF, STATE_OFF⟩ : StateMachine).currentState = STATE_ACTIVE ∨
       (⟨STATE_OFF, STATE_OFF⟩ : StateMachine).currentState = STATE_ALERT) :=
  reachable_no_error _ ReachableM.init

/-- The handshake wait loop never inspects the input stream beyond the
iterations its 5000 ms deadline allows (100 ms per iteration). -/
theorem connectLoop_take (n : Nat) :
    ∀ (elapsed : Nat) (inp : List (Option String)),
      5000 - elapsed ≤ 100 * n →
      connectLoop elapsed inp = connectLoop elapsed (inp.take n) := by
  induction n with
  | zero =>
    intro elapsed inp hle
    have h5 : ¬ elapsed < 5000 := by omega
    unfold connectLoop
    simp [h5]
  | succ k ih =>
    intro elapsed inp hle
    by_cases h5 : elapsed < 5000
    · cases inp with
      | nil => simp
      | cons o rest =>
        rw [List.take_succ_cons]
        unfold connectLoop
        simp only [if_pos h5]
        cases o with
        | none => exact ih (elapsed + 100) rest (by omega)
        | some r =>
          by_cases hok : r = "CLOUD_OK"
          · simp [hok]
          · by_cases hfl : r = "CLOUD_FAIL"
            · simp [hok, hfl]
            · simp only [hok, hfl, if_false, reduceIte]
              exact ih (elapsed + 100) rest (by omega)
    · unfold connectLoop
      simp [h5]

/-- If no handshake token ever arrives, the wait loop falls through to the
deadline and reports not-connected. -/
theorem connectLoop_no_token (n : Nat) :
    ∀ (elapsed : Nat) (inp : List (Option String)),
      5000 - elapsed ≤ 100 * n →
      (∀ o ∈ inp, o ≠ some "CLOUD_OK" ∧ o ≠ some "CLOUD_FAIL") →
      connectLoop elapsed inp = false := by
  induction n with
  | zero =>
    intro elapsed inp hle htok
    have h5 : ¬ elapsed < 5000 := by omega
    unfold connectLoop
    simp [h5]
  | succ k ih =>
    intro elapsed inp hle htok
    by_cases h5 : elapsed < 5000
    · unfold connectLoop
      simp only [if_pos h5]
      cases inp with
      | nil => exact ih (elapsed + 100) [] (by omega) (by simp)
      | cons o rest =>
        have ho := htok o (by simp)
        have hrest : ∀ x ∈ rest, x ≠ some "CLOUD_OK" ∧ x ≠ some "CLOUD_FAIL" :=
          fun x hx => htok x (by simp [hx])
        cases o with
        | none => exact ih (elapsed + 100) rest (by omega) hrest
        | some r =>
          have hok : ¬ r = "CLOUD_OK" := fun hh => ho.1 (by rw [hh])
          have hfl : ¬ r = "CLOUD_FAIL" := fun hh => ho.2 (by rw [hh])
          simp only [hok, hfl, if_false, reduceIte]
          exact ih (elapsed + 100) rest (by omega) hrest
    · unfold connectLoop
      simp [h5]

/-- C9: the cloud-connect handshake terminates within its fixed 5-second
deadline for every input stream — it never reads past the 50 iterations the
deadline allows — and if neither CLOUD_OK nor CLOUD_FAIL arrives it resolves
to the not-connected outcome instead of hanging. -/
theorem connectToCloud_deadline (inp : List (Option String)) :
    connectToCloud inp = connectToCloud (inp.take 50) ∧
    ((∀ o ∈ inp, o ≠ some "CLOUD_OK" ∧ o ≠ some "CLOUD_FAIL") →
      connectToCloud inp = false) := by
  constructor
  · exact connectLoop_take 50 0 inp (by norm_num)
  · intro htok
    exact connectLoop_no_token 50 0 inp (by norm_num) htok

/-- Witness for C9 on a stream carrying only an unrelated line and a silent
iteration. -/
theorem connectToCloud_deadline_witness :
    (connectToCloud [some "hello", Option.none] =
      connectToCloud ([some "hello", Option.none].take 50)) ∧
    (∀ o ∈ [some "hello", Option.none],
      o ≠ some "CLOUD_OK" ∧ o ≠ some "CLOUD_FAIL") ∧
    connectToCloud [some "hello", Option.none] = false :=
  ⟨(connectToCloud_deadline _).1, by decide,
    (connectToCloud_deadline _).2 (by decide)⟩

/-- Positional characterization of the token-assignment loop for records with
fewer than 8 tokens: each of the 8 cache fields takes the `atof` of its
positional token when present and keeps its old value otherwise. -/
theorem applyTokens_short (cache : ThingSpeakData) (ts : List (List Char))
    (h : ts.length < 8) :
    applyTokens cache ts 0 =
      { temp := tokenRat ts 0 cache.temp,
        humid := tokenRat ts 1 cache.humid,
        gas := tokenInt ts 2 cache.gas,
        dist := tokenInt ts 3 cache.dist,
        state := tokenInt ts 4 cache.state,
        pitch := tokenRat ts 5 cache.pitch,
        roll := tokenRat ts 6 cache.roll,
        yaw := tokenRat ts 7 cache.yaw } := by
  rcases ts with _ | ⟨t0, _ | ⟨t1, _ | ⟨t2, _ | ⟨t3, _ | ⟨t4, _ | ⟨t5, _ |
    ⟨t6, _ | ⟨t7, rest⟩⟩⟩⟩⟩⟩⟩⟩ <;>
    simp_all [applyTokens, tokenRat, tokenInt]
  omega

/-- C8: an inbound record with fewer than 8 pipe-separated tokens populates
only the display-cache fields for the tokens present, in positional order,
and leaves every remaining cached field at its previous (stale) value. -/
theorem readTS_short_record (cache : ThingSpeakData) (raw : String)
    (hnl : raw.toList.contains '\n' = true)
    (hlen : (tokenizeLine (accumulateLine raw.toList)).length < 8) :
    readThingSpeakData cache raw =
      { temp := tokenRat (tokenizeLine (accumulateLine raw.toList)) 0 cache.temp,
        humid := tokenRat (tokenizeLine (accumulateLine raw.toList)) 1 cache.humid,
        gas := tokenInt (tokenizeLine (accumulateLine raw.toList)) 2 cache.gas,
        dist := tokenInt (tokenizeLine (accumulateLine raw.toList)) 3 cache.dist,
        state := tokenInt (tokenizeLine (accumulateLine raw.toList)) 4 cache.state,
        pitch := tokenRat (tokenizeLine (accumulateLine raw.toList)) 5 cache.pitch,
        roll := tokenRat (tokenizeLine (accumulateLine raw.toList)) 6 cache.roll,
        yaw := tokenRat (tokenizeLine (accumulateLine raw.toList)) 7 cache.yaw } := by
  unfold readThingSpeakData
  rw [if_pos hnl]
  exact applyTokens_short cache _ hlen

/-- Witness for C8: a two-token record refreshes temperature and humidity and
leaves the other six cached fields stale. -/
theorem readTS_short_record_witness :
    ("9|10.5\n" : String).toList.contains '\n' = true ∧
    (tokenizeLine (accumulateLine ("9|10.5\n" : String).toList)).length < 8 ∧
    readThingSpeakData ⟨1, 2, 3, 4, 5, 6, 7, 8⟩ "9|10.5\n" =
      { temp := tokenRat (tokenizeLine (accumulateLine ("9|10.5\n" : String).toList)) 0
          (⟨1, 2, 3, 4, 5, 6, 7, 8⟩ : ThingSpeakData).temp,
        humid := tokenRat (tokenizeLine (accumulateLine ("9|10.5\n" : String).toList)) 1
          (⟨1, 2, 3, 4, 5, 6, 7, 8⟩ : ThingSpeakData).humid,
        gas := tokenInt (tokenizeLine (accumulateLine ("9|10.5\n" : String).toList)) 2
          (⟨1, 2, 3, 4, 5, 6, 7, 8⟩ : ThingSpeakData).gas,
        dist := tokenInt (tokenizeLine (accumulateLine ("9|10.5\n" : String).toList)) 3
          (⟨1, 2, 3, 4, 5, 6, 7, 8⟩ : ThingSpeakData).dist,
        state := tokenInt (tokenizeLine (accumulateLine ("9|10.5\n" : String).toList)) 4
          (⟨1, 2, 3, 4, 5, 6, 7, 8⟩ : ThingSpeakData).state,
        pitch := tokenRat (tokenizeLine (accumulateLine ("9|10.5\n" : String).toList)) 5
          (⟨1, 2, 3, 4, 5, 6, 7, 8⟩ : ThingSpeakData).pitch,
        roll := tokenRat (tokenizeLine (accumulateLine ("9|10.5\n" : String).toList)) 6
          (⟨1, 2, 3, 4, 5, 6, 7, 8⟩ : ThingSpeakData).roll,
        yaw := tokenRat (tokenizeLine (accumulateLine ("9|10.5\n" : String).toList)) 7
          (⟨1, 2, 3, 4, 5, 6, 7, 8⟩ : ThingSpeakData).yaw } :=
  ⟨by decide, by decide, readTS_short_record _ _ (by decide) (by decide)⟩

/-- Numeric value of the token `23.5`. -/
theorem atofTok_235 : atof ['2', '3', '.', '5'] = 23.5 := by
  simp [atof, atofMag, parseDigits, parseFrac]
  norm_num

/-- Numeric value of the token `55.0`. -/
theorem atofTok_550 : atof ['5', '5', '.', '0'] = 55.0 := by
  simp [atof, atofMag, parseDigits, parseFrac]
  norm_num

/-- Numeric value of the token `120`. -/
theorem atofTok_120 : atof ['1', '2', '0'] = 120 := by
  simp [atof, atofMag, parseDigits, parseFrac]

/-- Numeric value of the token `150`. -/
theorem atofTok_150 : atof ['1', '5', '0'] = 150 := by
  simp [atof, atofMag, parseDigits, parseFrac]

/-- Numeric value of the token `2`. -/
theorem atofTok_2 : atof ['2'] = 2 := by
  simp [atof, atofMag, parseDigits, parseFrac]

/-- Numeric value of the token `1.2`. -/
theorem atofTok_12 : atof ['1', '.', '2'] = 1.2 := by
  simp [atof, atofMag, parseDigits, parseFrac]
  norm_num

/-- Numeric value of the token `-0.5`. -/
theorem atofTok_neg05 : atof ['-', '0', '.', '5'] = -0.5 := by
  simp [atof, atofMag, parseDigits, parseFrac]
  norm_num

/-- Numeric value of the token `10.0`. -/
theorem atofTok_100 : atof ['1', '0', '.', '0'] = 10.0 := by
  simp [atof, atofMag, parseDigits, parseFrac]
  norm_num

/-- Integer cast of the parsed value 120. -/
theorem truncInt_of_120 : truncInt (120 : Rat) = 120 := by decide

/-- Integer cast of the parsed value 150. -/
theorem truncInt_of_150 : truncInt (150 : Rat) = 150 := by decide

/-- Integer cast of the parsed value 2. -/
theorem truncInt_of_2 : truncInt (2 : Rat) = 2 := by decide

/-- C7: serializing the telemetry record {23.5, 55.0, 120, 150, state 2, 1.2,
-0.5, 10.0} yields exactly the CSV line `23.5,55.0,120,150,2,1.2,-0.5,10.0`
plus the line terminator, and parsing the pipe-delimited inbound line
`23.5|55.0|120|150|2|1.2|-0.5|10.0` populates the display cache with the same
8 values (round-trip). -/
theorem telemetry_roundtrip :
    sendDataToSerial ⟨23.5, 55.0, 120, 150, 1.2, -0.5, 10.0, true⟩ STATE_ACTIVE =
      "23.5,55.0,120,150,2,1.2,-0.5,10.0" ++ "\r\n" ∧
    readThingSpeakData ⟨0, 0, 0, 0, 0, 0, 0, 0⟩
        "23.5|55.0|120|150|2|1.2|-0.5|10.0\n" =
      ⟨23.5, 55.0, 120, 150, 2, 1.2, -0.5, 10.0⟩ := by
  constructor
  · simp only [sendDataToSerial]
    rw [printFloat1_of_235, printFloat1_of_55, printFloat1_of_12,
      printFloat1_of_neg05, printFloat1_of_10]
    decide
  · have htok :
        tokenizeLine (accumulateLine
          ("23.5|55.0|120|150|2|1.2|-0.5|10.0\n" : String).toList) =
        [['2', '3', '.', '5'], ['5', '5', '.', '0'], ['1', '2', '0'],
         ['1', '5', '0'], ['2'], ['1', '.', '2'], ['-', '0', '.', '5'],
         ['1', '0', '.', '0']] := by decide
    unfold readThingSpeakData
    rw [if_pos (by decide), htok]
    simp [applyTokens, atofTok_235, atofTok_550, atofTok_120, atofTok_150,
      atofTok_2, atofTok_12, atofTok_neg05, atofTok_100, truncInt_of_120,
      truncInt_of_150, truncInt_of_2]

end UAV
